import Mathlib

/- Verification of the data-cleaning engine in data_cleaning.py:
   fatality decomposition (parse_fatalities), location resolution
   (split_location), time parsing (_parse_time), aircraft categorization
   (categorize_aircraft), narrative classifiers (extract_phase,
   extract_weather) and the adverse-weather flag (has_adverse).

   Modelling conventions: Python strings are Lean strings (their lists of
   characters); an absent value (pandas NaN) is `none`; a function that can
   raise a Python exception returns an `Option` whose outer `none` marks the
   raised exception. Character classes follow the ASCII reading of Python's
   regex classes. -/

/-- Numeric value of a list of decimal digit characters, as Python int() applied
to a nonempty all-digit string. -/
def digitsToNat (ds : List Char) : Nat :=
  ds.foldl (fun a c => 10 * a + (c.toNat - 48)) 0

/-- Python str.strip(): remove leading and trailing whitespace characters. -/
def pyStrip (l : List Char) : List Char :=
  ((l.dropWhile Char.isWhitespace).reverse.dropWhile Char.isWhitespace).reverse

/-- Python str.strip() packaged on strings. -/
def strip (s : String) : String := String.mk (pyStrip s.toList)

/-- Python str.lower() (ASCII model). -/
def pyLower (s : String) : String := String.mk (s.toList.map Char.toLower)

/-- Does the first list start the second one? (helper for substring tests). -/
def startsWithL : List Char → List Char → Bool
  | [], _ => true
  | _ :: _, [] => false
  | a :: as, b :: bs => (a = b) && startsWithL as bs

/-- Does the first list occur contiguously inside the second one?
Models the Python expression needle in hay on strings. -/
def occursIn (needle : List Char) : List Char → Bool
  | [] => needle.isEmpty
  | c :: rest => startsWithL needle (c :: rest) || occursIn needle rest

/-- Python substring containment, needle in hay, on strings. -/
def substrB (needle hay : String) : Bool := occursIn needle.toList hay.toList

/-- Zero-padded two-digit decimal rendering: the Python format spec 02d applied
to values below 100 (the only values reaching it in _parse_time). -/
def pad2 (n : Nat) : String := String.mk [Char.ofNat (48 + n / 10), Char.ofNat (48 + n % 10)]

/-- Length normalisation of the digit string in _parse_time
(data_cleaning.py lines 297-300): a length-3 run is left-padded with one zero,
a run longer than 4 keeps its last 4 digits. -/
def normTime (d : List Char) : List Char :=
  if d.length = 3 then '0' :: d else if 4 < d.length then d.drop (d.length - 4) else d

/-- Core of _parse_time after the placeholder short-circuit
(data_cleaning.py lines 291-306): strip non-digits, reject empty or length
at most 2, normalise to 4 digits, split into hour and minute, range-check. -/
def parse_time_core (l : List Char) : Option String :=
  let d := l.filter Char.isDigit
  if d.isEmpty then none
  else if d.length ≤ 2 then none
  else
    let hh := digitsToNat ((normTime d).take 2)
    let mm := digitsToNat (((normTime d).drop 2).take 2)
    if 23 < hh ∨ 59 < mm then none
    else some (pad2 hh ++ ":" ++ pad2 mm)

/-- The function _parse_time of data_cleaning.py (lines 284-306): NaN input,
and stripped input equal to a question mark or empty, short-circuit to none. -/
def parse_time (t : Option String) : Option String :=
  match t with
  | none => none
  | some t0 =>
    let s := pyStrip t0.toList
    if s = ['?'] ∨ s = [] then none else parse_time_core s

/-- Written from the specification's words for the Temporal Parser (spec section
4.2 and claim C4), as the second definition of the refinement claim: strip all
non-digit characters; if the result is empty or has length at most 2 the time is
absent; if length 3 left-pad with a zero; if longer than 4 keep only the last 4
digits; the first two digits become HH and the last two MM; out-of-range values
are made absent. -/
def time_spec (s : String) : Option String :=
  let d := s.toList.filter Char.isDigit
  if d.length ≤ 2 then none
  else
    let hh := digitsToNat ((normTime d).take 2)
    let mm := digitsToNat ((normTime d).drop 2)
    if 23 < hh ∨ 59 < mm then none
    else some (pad2 hh ++ ":" ++ pad2 mm)

theorem filter_dropWhile_excl {p q : Char → Bool} (h : ∀ a, q a = true → p a = false) :
    ∀ l : List Char, (l.dropWhile q).filter p = l.filter p := by
  intro l
  induction l with
  | nil => rfl
  | cons a l ih =>
    by_cases hq : q a = true
    · rw [List.dropWhile_cons, if_pos hq, ih, List.filter_cons, h a hq]
      simp
    · rw [List.dropWhile_cons, if_neg hq]

theorem whitespace_not_digit : ∀ a : Char, a.isWhitespace = true → a.isDigit = false := by
  intro a h
  simp [Char.isWhitespace] at h
  rcases h with ((h | h) | h) | h <;> subst h <;> decide

theorem filter_digits_pyStrip (l : List Char) :
    (pyStrip l).filter Char.isDigit = l.filter Char.isDigit := by
  unfold pyStrip
  rw [List.filter_reverse, filter_dropWhile_excl whitespace_not_digit,
    List.filter_reverse, List.reverse_reverse, filter_dropWhile_excl whitespace_not_digit]

theorem normTime_length {d : List Char} (h : 2 < d.length) :
    (normTime d).length = 4 := by
  unfold normTime
  split
  · simp only [List.length_cons]
    omega
  · split
    · rw [List.length_drop]
      omega
    · omega

theorem pad2_length (n : Nat) : (pad2 n).length = 2 := rfl

theorem parse_time_some (s : String) :
    parse_time (some s) =
      if pyStrip s.toList = ['?'] ∨ pyStrip s.toList = [] then none
      else parse_time_core (pyStrip s.toList) := rfl

theorem parse_time_core_eq (l : List Char) :
    parse_time_core l =
      if (l.filter Char.isDigit).isEmpty then none
      else if (l.filter Char.isDigit).length ≤ 2 then none
      else if 23 < digitsToNat ((normTime (l.filter Char.isDigit)).take 2) ∨
              59 < digitsToNat (((normTime (l.filter Char.isDigit)).drop 2).take 2) then none
      else some (pad2 (digitsToNat ((normTime (l.filter Char.isDigit)).take 2)) ++ ":" ++
                 pad2 (digitsToNat (((normTime (l.filter Char.isDigit)).drop 2).take 2))) := rfl

theorem time_spec_eq (s : String) :
    time_spec s =
      if (s.toList.filter Char.isDigit).length ≤ 2 then none
      else if 23 < digitsToNat ((normTime (s.toList.filter Char.isDigit)).take 2) ∨
              59 < digitsToNat ((normTime (s.toList.filter Char.isDigit)).drop 2) then none
      else some (pad2 (digitsToNat ((normTime (s.toList.filter Char.isDigit)).take 2)) ++ ":" ++
                 pad2 (digitsToNat ((normTime (s.toList.filter Char.isDigit)).drop 2))) := rfl

/-- C3: every output of the time parser is either absent or a zero-padded
five-character string HH:MM with hour at most 23 and minute at most 59;
no other output shape is ever returned. -/
theorem time_validity_invariant :
    ∀ (t : Option String) (r : String), parse_time t = some r →
      ∃ hh mm, hh ≤ 23 ∧ mm ≤ 59 ∧ r = pad2 hh ++ ":" ++ pad2 mm ∧ r.length = 5 := by
  intro t r hr
  match t with
  | none => simp [parse_time] at hr
  | some t0 =>
    simp only [parse_time] at hr
    split at hr
    · exact absurd hr (by simp)
    · simp only [parse_time_core] at hr
      split at hr
      · exact absurd hr (by simp)
      · split at hr
        · exact absurd hr (by simp)
        · split at hr
          · exact absurd hr (by simp)
          · rename_i hrange
            push_neg at hrange
            refine ⟨_, _, hrange.1, hrange.2, (Option.some.inj hr).symm, ?_⟩
            rw [← Option.some.inj hr]
            rw [String.length_append, String.length_append, pad2_length, pad2_length]
            rfl

/-- Witness for C3 at the concrete input "700". -/
theorem time_validity_invariant_witness :
    ∃ hh mm, hh ≤ 23 ∧ mm ≤ 59 ∧ "07:00" = pad2 hh ++ ":" ++ pad2 mm ∧ ("07:00").length = 5 :=
  time_validity_invariant (some "700") "07:00" (by decide)

/-- C4: the time parser implements exactly the algorithm stated by the
specification (strip non-digits, reject length at most 2, left-pad length 3,
keep the last 4 digits of longer runs, split into hour and minute); in
particular "700" parses to "07:00" and "2645" is absent. -/
theorem time_algorithm :
    (∀ s : String, parse_time (some s) = time_spec s) ∧
    parse_time (some "700") = some "07:00" ∧ parse_time (some "2645") = none := by
  refine ⟨?_, by decide, by decide⟩
  intro s
  have hfil := filter_digits_pyStrip s.toList
  by_cases h1 : pyStrip s.toList = ['?'] ∨ pyStrip s.toList = []
  · have hd : s.toList.filter Char.isDigit = [] := by
      rcases h1 with h | h <;> rw [← hfil, h] <;> rfl
    rw [parse_time_some, if_pos h1, time_spec_eq, hd]
    simp
  · rw [parse_time_some, if_neg h1, parse_time_core_eq, hfil, time_spec_eq]
    by_cases hle : (s.toList.filter Char.isDigit).length ≤ 2
    · by_cases hemp : (s.toList.filter Char.isDigit).isEmpty = true
      · rw [if_pos hemp, if_pos hle]
      · rw [if_neg hemp, if_pos hle, if_pos hle]
    · have hemp : ¬ (s.toList.filter Char.isDigit).isEmpty = true := by
        cases hcd : s.toList.filter Char.isDigit with
        | nil => rw [hcd] at hle; simp at hle
        | cons a l => simp [hcd]
      rw [if_neg hemp, if_neg hle, if_neg hle]
      have h4 : (normTime (s.toList.filter Char.isDigit)).length = 4 :=
        normTime_length (by omega)
      have hdl : ((normTime (s.toList.filter Char.isDigit)).drop 2).length = 2 := by
        rw [List.length_drop, h4]
      rw [List.take_of_length_le (le_of_eq hdl)]

/-- First maximal run of decimal digits in a list of characters: the leftmost
match of the digit-group regex search in parse_fatalities
(data_cleaning.py line 218). -/
def firstDigitRun : List Char → Option (List Char)
  | [] => none
  | c :: rest =>
    if c.isDigit then some (c :: rest.takeWhile Char.isDigit) else firstDigitRun rest

/-- Attempted match, at the current position, of a case-insensitive label
followed by optional whitespace and a nonempty run of digit-or-question-mark
characters: one position of the label regex of parse_fatalities. -/
def tryLabelAt (label : List Char) (s : List Char) : Option (List Char) :=
  if (s.take label.length).map Char.toLower = label then
    let tok := ((s.drop label.length).dropWhile Char.isWhitespace).takeWhile
      (fun c => c.isDigit || c = '?')
    if tok = [] then none else some tok
  else none

/-- Leftmost match of the label pattern over the whole string: the regex
searches of parse_fatalities (data_cleaning.py lines 221 and 226). -/
def labelSearch (label : List Char) : List Char → Option (List Char)
  | [] => none
  | c :: rest =>
    match tryLabelAt label (c :: rest) with
    | some tok => some tok
    | none => labelSearch label rest

/-- Question-mark guard plus Python int() on a matched token, as in
parse_fatalities lines 223-224 and 228-229: the token "?" yields an absent
value, an all-digit token its numeric value; the outer none models the
ValueError raised by int() on a token mixing digits and question marks. -/
def intResult (tok : List Char) : Option (Option Nat) :=
  if tok = ['?'] then some none
  else if tok.all Char.isDigit then some (some (digitsToNat tok)) else none

/-- Extraction of one labelled field in parse_fatalities: a missing label
match yields an absent value, a matched token goes through intResult. -/
def fatField (label : List Char) (s : List Char) : Option (Option Nat) :=
  match labelSearch label s with
  | none => some none
  | some tok => intResult tok

/-- The function parse_fatalities of data_cleaning.py (lines 212-231), with
the passengers field evaluated before the crew field as in the source.
The outer Option models a raised exception (none = unhandled ValueError). -/
def parse_fatalities (text : Option String) :
    Option (Option Nat × Option Nat × Option Nat) :=
  match text with
  | none => some (none, none, none)
  | some t =>
    match fatField ("passengers:".toList) t.toList with
    | none => none
    | some pax =>
      match fatField ("crew:".toList) t.toList with
      | none => none
      | some crew => some ((firstDigitRun t.toList).map digitsToNat, pax, crew)

/-- Value of a labelled field as the specification describes it: the digit run
after the label parsed as an integer, the question-mark placeholder absent. -/
def labelValue (label : List Char) (s : List Char) : Option Nat :=
  match labelSearch label s with
  | none => none
  | some tok => if tok = ['?'] then none else some (digitsToNat tok)

theorem parse_fatalities_some (t : String) :
    parse_fatalities (some t) =
      match fatField ("passengers:".toList) t.toList with
      | none => none
      | some pax =>
        match fatField ("crew:".toList) t.toList with
        | none => none
        | some crew => some ((firstDigitRun t.toList).map digitsToNat, pax, crew) := rfl

theorem take_one_dropWhile (p : Char → Bool) :
    ∀ l : List Char, ∀ ch ∈ (l.dropWhile p).take 1, p ch = false := by
  intro l
  induction l with
  | nil => intro ch h; simp at h
  | cons a l ih =>
    intro ch h
    by_cases ha : p a = true
    · rw [List.dropWhile_cons, if_pos ha] at h
      exact ih ch h
    · rw [List.dropWhile_cons, if_neg ha] at h
      have hca : ch = a := by simpa using h
      rw [hca]
      cases hpa : p a with
      | false => rfl
      | true => exact absurd hpa ha

theorem firstDigitRun_none : ∀ l : List Char, firstDigitRun l = none →
    ∀ ch ∈ l, ch.isDigit = false := by
  intro l
  induction l with
  | nil => intro _ ch h; simp at h
  | cons a l ih =>
    intro h ch hch
    unfold firstDigitRun at h
    by_cases ha : a.isDigit = true
    · rw [if_pos ha] at h
      exact absurd h (by simp)
    · rw [if_neg ha] at h
      rcases List.mem_cons.mp hch with rfl | hm
      · cases hpa : ch.isDigit with
        | false => rfl
        | true => exact absurd hpa ha
      · exact ih h ch hm

theorem firstDigitRun_some : ∀ l run : List Char, firstDigitRun l = some run →
    ∃ pre post, l = pre ++ run ++ post ∧ run ≠ [] ∧
      (∀ ch ∈ pre, ch.isDigit = false) ∧ (∀ ch ∈ run, ch.isDigit = true) ∧
      (∀ ch ∈ post.take 1, ch.isDigit = false) := by
  intro l
  induction l with
  | nil => intro run h; simp [firstDigitRun] at h
  | cons a l ih =>
    intro run h
    unfold firstDigitRun at h
    by_cases ha : a.isDigit = true
    · rw [if_pos ha] at h
      have hrun : run = a :: l.takeWhile Char.isDigit := (Option.some.inj h).symm
      refine ⟨[], l.dropWhile Char.isDigit, ?_, ?_, ?_, ?_, ?_⟩
      · rw [hrun]
        simp [List.takeWhile_append_dropWhile]
      · rw [hrun]; simp
      · intro ch hch; simp at hch
      · intro ch hch
        rw [hrun] at hch
        rcases List.mem_cons.mp hch with rfl | hm
        · exact ha
        · exact List.mem_takeWhile_imp hm
      · exact take_one_dropWhile Char.isDigit l
    · rw [if_neg ha] at h
      obtain ⟨pre, post, hl, hne, hpre, hrun, hpost⟩ := ih run h
      refine ⟨a :: pre, post, ?_, hne, ?_, hrun, hpost⟩
      · simp [hl, List.append_assoc]
      · intro ch hch
        rcases List.mem_cons.mp hch with rfl | hm
        · cases hpa : ch.isDigit with
          | false => rfl
          | true => exact absurd hpa ha
        · exact hpre ch hm

theorem fatField_some_eq (label s : List Char) (v : Option Nat) :
    fatField label s = some v → v = labelValue label s := by
  intro h
  unfold fatField at h
  unfold labelValue
  cases hls : labelSearch label s with
  | none =>
    rw [hls] at h
    have h2 := Option.some.inj (h : some (none : Option Nat) = some v)
    show v = none
    exact h2.symm
  | some tok =>
    rw [hls] at h
    have h' : intResult tok = some v := h
    show v = if tok = ['?'] then none else some (digitsToNat tok)
    unfold intResult at h'
    by_cases hq : tok = ['?']
    · rw [if_pos hq] at h'
      rw [if_pos hq]
      exact (Option.some.inj h').symm
    · rw [if_neg hq] at h'
      rw [if_neg hq]
      by_cases hd : tok.all Char.isDigit = true
      · rw [if_pos hd] at h'
        exact (Option.some.inj h').symm
      · rw [if_neg hd] at h'
        exact absurd h' (by simp)

/-- C1 (code bug): the fatality decomposer is not total. On the input
"passengers:1?" the token captured after the passengers label mixes digits and
question marks, so int("1?") raises a ValueError, modelled by the outer none. -/
theorem parse_fatalities_not_total :
    parse_fatalities (some "passengers:1?") = none := by decide

/-- C5: under any non-raising evaluation of parse_fatalities, the total is the
value of the first maximal digit run of the string (absent when the string has
no digit), and the passengers and crew fields are the labelled values with the
question-mark placeholder absent; the two scenario strings of the
specification evaluate as stated. -/
theorem fatality_decomposition :
    (∀ (s : String) (t p c : Option Nat), parse_fatalities (some s) = some (t, p, c) →
      (t = none → ∀ ch ∈ s.toList, ch.isDigit = false) ∧
      (∀ n, t = some n → ∃ pre run post, s.toList = pre ++ run ++ post ∧ run ≠ [] ∧
        (∀ ch ∈ pre, ch.isDigit = false) ∧ (∀ ch ∈ run, ch.isDigit = true) ∧
        (∀ ch ∈ post.take 1, ch.isDigit = false) ∧ n = digitsToNat run) ∧
      p = labelValue ("passengers:".toList) s.toList ∧
      c = labelValue ("crew:".toList) s.toList) ∧
    parse_fatalities (some "1    (passengers:1  crew:0)") = some (some 1, some 1, some 0) ∧
    parse_fatalities (some "22   (passengers:?  crew:?)") = some (some 22, none, none) := by
  refine ⟨?_, by decide, by decide⟩
  intro s t p c h
  rw [parse_fatalities_some] at h
  split at h
  · exact absurd h (by simp)
  · rename_i pax hpax
    split at h
    · exact absurd h (by simp)
    · rename_i crew hcrew
      have h3 := Option.some.inj h
      injection h3 with ht h4
      injection h4 with hp hc
      subst ht
      subst hp
      subst hc
      refine ⟨?_, ?_, fatField_some_eq _ _ _ hpax, fatField_some_eq _ _ _ hcrew⟩
      · intro h0
        cases hf : firstDigitRun s.toList with
        | none => exact firstDigitRun_none _ hf
        | some run => rw [hf] at h0; simp at h0
      · intro n hn
        cases hf : firstDigitRun s.toList with
        | none => rw [hf] at hn; simp at hn
        | some run =>
          rw [hf] at hn
          simp at hn
          obtain ⟨pre, post, hl, hne, hpre, hrun, hpost⟩ := firstDigitRun_some _ _ hf
          exact ⟨pre, run, post, hl, hne, hpre, hrun, hpost, hn.symm⟩

/-- Witness for C5 at the first scenario string of the specification. -/
theorem fatality_decomposition_witness :
    some 1 = labelValue ("passengers:".toList) ("1    (passengers:1  crew:0)").toList ∧
    some 0 = labelValue ("crew:".toList) ("1    (passengers:1  crew:0)").toList :=
  (fatality_decomposition.1 "1    (passengers:1  crew:0)"
    (some 1) (some 1) (some 0) (by decide)).2.2

/-- US state full names (data_cleaning.py lines 8-59). -/
def US_STATES : List String :=
  ["Alabama", "Alaska", "Arizona", "Arkansas", "California", "Colorado",
   "Connecticut", "Delaware", "Florida", "Georgia", "Hawaii", "Idaho",
   "Illinois", "Indiana", "Iowa", "Kansas", "Kentucky", "Louisiana", "Maine",
   "Maryland", "Massachusetts", "Michigan", "Minnesota", "Mississippi",
   "Missouri", "Montana", "Nebraska", "Nevada", "New Hampshire", "New Jersey",
   "New Mexico", "New York", "North Carolina", "North Dakota", "Ohio",
   "Oklahoma", "Oregon", "Pennsylvania", "Rhode Island", "South Carolina",
   "South Dakota", "Tennessee", "Texas", "Utah", "Vermont", "Virginia",
   "Washington", "West Virginia", "Wisconsin", "Wyoming"]

/-- US state abbreviations (data_cleaning.py lines 61-112). -/
def US_ABBREVS : List String :=
  ["AL", "AK", "AZ", "AR", "CA", "CO", "CT", "DE", "FL", "GA", "HI", "ID",
   "IL", "IN", "IA", "KS", "KY", "LA", "ME", "MD", "MA", "MI", "MN", "MS",
   "MO", "MT", "NE", "NV", "NH", "NJ", "NM", "NY", "NC", "ND", "OH", "OK",
   "OR", "PA", "RI", "SC", "SD", "TN", "TX", "UT", "VT", "VA", "WA", "WV",
   "WI", "WY"]

/-- Known country names (data_cleaning.py lines 114-152). -/
def KNOWN_COUNTRIES : List String :=
  ["United States", "USA", "U.S.A.", "U.S.", "United States of America",
   "Canada", "Mexico", "England", "United Kingdom", "UK", "Scotland", "Wales",
   "Northern Ireland", "France", "Germany", "Belgium", "Italy", "Spain",
   "Portugal", "Netherlands", "Switzerland", "Austria", "Sweden", "Norway",
   "Finland", "Denmark", "Russia", "Soviet Union", "Japan", "China", "India",
   "Australia", "New Zealand", "Brazil", "Argentina", "Chile", "South Africa"]

/-- Python str.split on a comma: every part kept, empty parts included. -/
def splitComma : List Char → List (List Char)
  | [] => [[]]
  | c :: rest =>
    if c = ',' then [] :: splitComma rest
    else
      match splitComma rest with
      | [] => [[c]]
      | h :: t => (c :: h) :: t

/-- Trimmed nonempty comma-separated segments of a location string
(data_cleaning.py line 248). -/
def partsOf (s : String) : List String :=
  ((splitComma s.toList).map (fun p => String.mk (pyStrip p))).filter (fun p => p ≠ "")

/-- Two-segment branch of split_location (data_cleaning.py lines 251-264). -/
def locTwo (a b : String) : Option String × Option String × Option String :=
  if KNOWN_COUNTRIES.contains b then (some a, none, some b)
  else if US_STATES.contains b ∨ US_ABBREVS.contains b then
    (some a, some b, some "United States")
  else if KNOWN_COUNTRIES.any (fun c => substrB c b) then (some a, none, some b)
  else (some a, some b, none)

/-- Dispatch on the segment list (data_cleaning.py lines 249-269); the none
result models the IndexError raised by parts[0] when no nonempty segment
remains after trimming. -/
def locFromParts : List String → Option (Option String × Option String × Option String)
  | [] => none
  | [p] => some (some p, none, none)
  | [a, b] => some (locTwo a b)
  | a :: b :: c :: rest => some (some a, some b, some ((c :: rest).getLastD c))

/-- The function split_location of data_cleaning.py (lines 234-269); the outer
none models a raised IndexError. -/
def split_location (loc : Option String) :
    Option (Option String × Option String × Option String) :=
  match loc with
  | none => some (none, none, none)
  | some l =>
    if strip l = "" then some (none, none, none)
    else if ((strip l).toList.contains ',') = false then
      (if KNOWN_COUNTRIES.contains (strip l) ∨
          KNOWN_COUNTRIES.any (fun c => substrB c (strip l)) then
        some (none, none, some (strip l))
       else some (some (strip l), none, none))
    else locFromParts (partsOf (strip l))

theorem split_location_some (l : String) :
    split_location (some l) =
      if strip l = "" then some (none, none, none)
      else if ((strip l).toList.contains ',') = false then
        (if KNOWN_COUNTRIES.contains (strip l) ∨
            KNOWN_COUNTRIES.any (fun c => substrB c (strip l)) then
          some (none, none, some (strip l))
         else some (some (strip l), none, none))
      else locFromParts (partsOf (strip l)) := rfl

/-- C6: with exactly two trimmed nonempty comma-separated segments a and b,
the resolver keeps a as the city; b becomes the country when it exactly
matches a known country, becomes the state of the United States when it
matches a US state name or abbreviation, becomes the country when it contains
a known country as a substring, and otherwise stays as a state with no
country; "Miami, FL" resolves to Miami / FL / United States. -/
theorem location_two_segments :
    (∀ l a b : String, strip l ≠ "" → (strip l).toList.contains ',' = true →
      partsOf (strip l) = [a, b] →
      split_location (some l) = some (
        if KNOWN_COUNTRIES.contains b then (some a, none, some b)
        else if US_STATES.contains b ∨ US_ABBREVS.contains b then
          (some a, some b, some "United States")
        else if KNOWN_COUNTRIES.any (fun c => substrB c b) then (some a, none, some b)
        else (some a, some b, none))) ∧
    split_location (some "Miami, FL") = some (some "Miami", some "FL", some "United States") := by
  refine ⟨?_, by decide⟩
  intro l a b h1 h2 h3
  rw [split_location_some, if_neg h1, h2, if_neg (by simp : ¬ (true = false)), h3]
  rfl

/-- Witness for C6 at the concrete input "Miami, FL". -/
theorem location_two_segments_witness :
    split_location (some "Miami, FL") = some (
      if KNOWN_COUNTRIES.contains "FL" then (some "Miami", none, some "FL")
      else if US_STATES.contains "FL" ∨ US_ABBREVS.contains "FL" then
        (some "Miami", some "FL", some "United States")
      else if KNOWN_COUNTRIES.any (fun c => substrB c "FL") then (some "Miami", none, some "FL")
      else (some "Miami", some "FL", none)) :=
  location_two_segments.1 "Miami, FL" "Miami" "FL" (by decide) (by decide) (by decide)

/-- C9 (code bug): the location resolver is not total. On the input "," every
comma-separated segment strips to empty, the list of segments is empty, and
the subscript parts[0] raises an IndexError, modelled by the outer none;
the absent and whitespace-only inputs do return the all-absent triple. -/
theorem split_location_not_total :
    split_location (some ",") = none ∧
    split_location none = some (none, none, none) ∧
    split_location (some "   ") = some (none, none, none) :=
  ⟨by decide, rfl, by decide⟩

/-- Whether any keyword of the list occurs as a substring of the text: the
Python test any(k in s for k in [...]). -/
def matchesAny (kws : List String) (s : String) : Bool := kws.any (fun k => substrB k s)

/-- Ordered first-match-wins scan over (keywords, label) rules: the shape of
the if-chains of categorize_aircraft and extract_phase. -/
def priorityScan (rules : List (List String × String)) (fb : String) (s : String) : String :=
  match rules with
  | [] => fb
  | r :: rest => if matchesAny r.1 s then r.2 else priorityScan rest fb s

/-- Keyword rules of categorize_aircraft in source order
(data_cleaning.py lines 350-400). -/
def aircraftRules : List (List String × String) :=
  [(["helicopter", " heli ", "bell ", "uh-", "ch-", "mh-", "ah-",
     "s-61", "s-76", "mi-8", "mi-17", "mi-24"], "Helicopter"),
   (["glider", "sailplane"], "Glider"),
   (["amphibian", "seaplane", "floatplane", "flying boat",
     "catalina", "pby", "goose", "otter", "beaver", "sunderland"],
    "Amphibian/Seaplane"),
   ([" c-1", " c-2", " c-3", " c-4", "kc-", "ec-", "rc-",
     " f-", " b-17", " b-24", " b-29", " b-52",
     "mig", "mig-", "su-", "tu-", "an-12", "an-22", "il-76"], "Military"),
   (["boeing", "airbus", "embraer", "erj", "e-jet",
     "bombardier", "crj", "md-", "dc-9", "dc-10", "l-1011",
     "fokker 70", "fokker 100", "yak-40", "yak-42", "tu-134", "tu-154"], "Jet"),
   (["turboprop", " turbo prop", "dhc-", "dash 8", "atr-",
     "saab 340", "saab 2000", "fokker 27", "fokker 50", "hs-748",
     "l-188", "herald", "shorts 3", "shorts-3", "metro ii", "metro iii",
     "an-24", "an-26", "an-32", "an-72", "casa 212", "jetstream 31",
     "jetstream 32"], "Turboprop"),
   (["cessna", "piper", "beech", "king air", "baron",
     "bonanza", "mooney", "seneca", "aztec", "navajo",
     "dc-3", "dakota", "convair", "cv-", "dc-4", "dc-6", "dc-7",
     "an-2", "il-14", "lockheed 10", "lockheed 12", "lockheed 18",
     "do-", "dornier", "y-7"], "Piston/Prop"),
   (["trimotor", "tri-motor", "waco", "curtiss", "junker", "junkers",
     "tiger moth", "biplane", "stearman"], "Vintage/Early")]

/-- The function categorize_aircraft of data_cleaning.py (lines 345-402):
NaN, empty-after-strip and "?" yield Unknown, otherwise a first-match scan of
the lower-cased string with fallback Other/Unmapped. -/
def categorize_aircraft (x : Option String) : String :=
  match x with
  | none => "Unknown"
  | some s =>
    if strip s = "" ∨ strip s = "?" then "Unknown"
    else priorityScan aircraftRules "Other/Unmapped" (pyLower s)

/-- Pandas astype(str) on one cell of a column: a missing value is rendered as
the string "nan" (data_cleaning.py line 343). -/
def astype_str (x : Option String) : String :=
  match x with
  | none => "nan"
  | some s => s

/-- The aircraft_category derivation of clean_dataset (data_cleaning.py lines
343 and 404): astype(str) on the cell, then categorize_aircraft. -/
def aircraft_category_col (x : Option String) : String :=
  categorize_aircraft (some (astype_str x))

/-- Keyword rules of extract_phase in source order
(data_cleaning.py lines 412-429). -/
def phaseRules : List (List String × String) :=
  [(["taxi", "ground", "parked"], "Ground/Taxi"),
   (["takeoff", "shortly after takeoff", "rotation"], "Takeoff"),
   (["initial climb"], "Initial climb"),
   ([" climb"], "Climb"),
   (["cruise", "en route", "enroute"], "Cruise"),
   (["descent"], "Descent"),
   (["approach", "final approach", "ils"], "Approach"),
   (["landing", "touchdown", "flare"], "Landing"),
   (["go-around", "missed approach"], "Go-around")]

/-- The function extract_phase of data_cleaning.py (lines 411-430), applied to
the already lower-cased summary. -/
def extract_phase (s : String) : String := priorityScan phaseRules "Unknown" s

/-- The function has_adverse of data_cleaning.py (lines 488-499): membership
test of the weather label against the tuple of adverse labels. -/
def has_adverse (w : String) : Bool :=
  if w = "Storm/Thunderstorm" ∨ w = "Fog/Low visibility" ∨ w = "Snow/Icy surface" ∨
     w = "Icing (in-flight)" ∨ w = "Rain" ∨ w = "Wind/Wind shear" ∨ w = "Turbulence"
  then true else false

/-- The seven adverse weather labels named by the specification. -/
def adverseLabels : List String :=
  ["Storm/Thunderstorm", "Fog/Low visibility", "Snow/Icy surface",
   "Icing (in-flight)", "Rain", "Wind/Wind shear", "Turbulence"]

theorem categorize_aircraft_some (s : String) :
    categorize_aircraft (some s) =
      if strip s = "" ∨ strip s = "?" then "Unknown"
      else priorityScan aircraftRules "Other/Unmapped" (pyLower s) := rfl

theorem priorityScan_rule :
    ∀ (rules : List (List String × String)) (fb s : String) (i : Nat) (h : i < rules.length),
      matchesAny (rules.get ⟨i, h⟩).1 s = true →
      (∀ j (hj : j < i), matchesAny (rules.get ⟨j, Nat.lt_trans hj h⟩).1 s = false) →
      priorityScan rules fb s = (rules.get ⟨i, h⟩).2 := by
  intro rules
  induction rules with
  | nil => intro fb s i h; exact absurd h (by simp)
  | cons r rest ih =>
    intro fb s i h hm hprev
    cases i with
    | zero =>
      have hr : matchesAny r.1 s = true := hm
      unfold priorityScan
      rw [if_pos hr]
      rfl
    | succ j =>
      have h0 : matchesAny r.1 s = false := hprev 0 (Nat.succ_pos j)
      unfold priorityScan
      rw [if_neg (by simp [h0])]
      exact ih fb s j (Nat.lt_of_succ_lt_succ h) hm
        (fun k hk => hprev (k + 1) (Nat.succ_lt_succ hk))

theorem priorityScan_mem_take :
    ∀ (rules : List (List String × String)) (fb s : String) (i : Nat) (h : i < rules.length),
      matchesAny (rules.get ⟨i, h⟩).1 s = true →
      priorityScan rules fb s ∈ (rules.take (i + 1)).map Prod.snd := by
  intro rules
  induction rules with
  | nil => intro fb s i h; exact absurd h (by simp)
  | cons r rest ih =>
    intro fb s i h hm
    unfold priorityScan
    by_cases hc : matchesAny r.1 s = true
    · rw [if_pos hc]
      cases i with
      | zero => simp
      | succ j => simp
    · rw [if_neg hc]
      cases i with
      | zero => exact absurd hm hc
      | succ j =>
        have hmem := ih fb s j (Nat.lt_of_succ_lt_succ h) hm
        simp only [List.take_succ_cons, List.map_cons]
        exact List.mem_cons_of_mem _ hmem

/-- C2 counterexample: in the cleaning pipeline an absent aircraft type is
stringified to "nan" by astype(str) before categorize_aircraft runs, so the
derived category is Other/Unmapped, not Unknown. -/
theorem absent_aircraft_not_unknown :
    aircraft_category_col none = "Other/Unmapped" ∧ aircraft_category_col none ≠ "Unknown" :=
  ⟨by decide, by decide⟩

/-- C2 amended: direct calls of categorize_aircraft map absent, empty and "?"
inputs to Unknown, and the pipeline derivation maps empty and "?" cells to
Unknown as well, but an absent cell reaches the categorizer as the string
"nan" and yields Other/Unmapped. -/
theorem aircraft_unknown_inputs :
    categorize_aircraft none = "Unknown" ∧
    categorize_aircraft (some "") = "Unknown" ∧
    categorize_aircraft (some "?") = "Unknown" ∧
    aircraft_category_col (some "") = "Unknown" ∧
    aircraft_category_col (some "?") = "Unknown" ∧
    aircraft_category_col none = "Other/Unmapped" :=
  ⟨rfl, by decide, by decide, by decide, by decide, by decide⟩

/-- C7: both keyword classifiers are deterministic by priority: when the rule
at index i matches the text and no earlier rule does, the returned label is
that of rule i, wherever the keywords occur in the text; a summary containing
both takeoff and initial climb has phase Takeoff. -/
theorem priority_determinism :
    (∀ (s : String) (i : Nat) (h : i < phaseRules.length),
      matchesAny ((phaseRules.get ⟨i, h⟩).1) s = true →
      (∀ j (hj : j < i), matchesAny ((phaseRules.get ⟨j, Nat.lt_trans hj h⟩).1) s = false) →
      extract_phase s = (phaseRules.get ⟨i, h⟩).2) ∧
    (∀ (s : String) (i : Nat) (h : i < aircraftRules.length),
      strip s ≠ "" → strip s ≠ "?" →
      matchesAny ((aircraftRules.get ⟨i, h⟩).1) (pyLower s) = true →
      (∀ j (hj : j < i),
        matchesAny ((aircraftRules.get ⟨j, Nat.lt_trans hj h⟩).1) (pyLower s) = false) →
      categorize_aircraft (some s) = (aircraftRules.get ⟨i, h⟩).2) ∧
    extract_phase "crashed during takeoff and initial climb" = "Takeoff" := by
  refine ⟨?_, ?_, by decide⟩
  · intro s i h hm hprev
    exact priorityScan_rule phaseRules "Unknown" s i h hm hprev
  · intro s i h hne hq hm hprev
    rw [categorize_aircraft_some, if_neg (not_or.mpr ⟨hne, hq⟩)]
    exact priorityScan_rule aircraftRules "Other/Unmapped" (pyLower s) i h hm hprev

/-- Witness for C7: the aircraft half applied at "Bell 206" and rule index 0. -/
theorem priority_determinism_witness :
    categorize_aircraft (some "Bell 206") = "Helicopter" :=
  priority_determinism.2.1 "Bell 206" 0 (by decide) (by decide) (by decide) (by decide)
    (fun j hj => absurd hj (Nat.not_lt_zero j))

/-- C8: the adverse-weather flag is true exactly on the seven adverse labels
and false on every other string, including Good/Visual conditions and
None/Not mentioned. -/
theorem weather_adverse_iff :
    (∀ w : String, has_adverse w = adverseLabels.contains w) ∧
    has_adverse "Good/Visual conditions" = false ∧
    has_adverse "None/Not mentioned" = false := by
  refine ⟨?_, by decide, by decide⟩
  intro w
  unfold has_adverse
  by_cases h : w = "Storm/Thunderstorm" ∨ w = "Fog/Low visibility" ∨ w = "Snow/Icy surface" ∨
      w = "Icing (in-flight)" ∨ w = "Rain" ∨ w = "Wind/Wind shear" ∨ w = "Turbulence"
  · rw [if_pos h]
    rcases h with h | h | h | h | h | h | h <;> subst h <;> decide
  · rw [if_neg h]
    push_neg at h
    obtain ⟨h1, h2, h3, h4, h5, h6, h7⟩ := h
    simp [adverseLabels, List.contains_cons, List.contains_nil, beq_iff_eq,
      h1, h2, h3, h4, h5, h6, h7]

/-- C10: a summary containing the substring approach is never classified
Go-around: the Approach rule, or an earlier one, always fires first; a summary
whose only phase cue is missed approach is classified Approach. -/
theorem approach_not_goaround :
    (∀ s : String, substrB "approach" s = true → extract_phase s ≠ "Go-around") ∧
    extract_phase "missed approach" = "Approach" := by
  refine ⟨?_, by decide⟩
  intro s hsub hEq
  have hm : matchesAny ((phaseRules.get ⟨6, by decide⟩).1) s = true := by
    have hr : (phaseRules.get ⟨6, by decide⟩).1 = ["approach", "final approach", "ils"] := rfl
    rw [hr]
    simp [matchesAny, hsub]
  have hmem := priorityScan_mem_take phaseRules "Unknown" s 6 (by decide) hm
  rw [show priorityScan phaseRules "Unknown" s = extract_phase s from rfl, hEq] at hmem
  revert hmem
  decide

/-- Witness for C10 at the concrete input "missed approach". -/
theorem approach_not_goaround_witness :
    extract_phase "missed approach" ≠ "Go-around" :=
  approach_not_goaround.1 "missed approach" (by decide)
